import Mathlib

/-!
Verification of the deterministic scoring / keyword-comparison engine of the
Dianelle AI CV Enhancer (Python sources: `utils/scoring_system.py`,
`utils/keyword_extractor.py`, `utils/cv_analyzer.py`, `utils/ollama_client.py`).

Modelling conventions:
* Python floats are modelled as rationals (all arithmetic in the engine is
  decimal arithmetic on small values); `round(x, n)` is modelled by
  `pyRound x n` (round half to even, as Python's `round`).
* Python `set`s (whose iteration order the language does not fix) are
  modelled as `Finset String`; Python `list`s with a fixed order as `List`.
* External collaborators (the NLTK tokenizer and stopword corpus, the
  textstat readability library, and the Ollama language model) are modelled
  as explicit oracle parameters (`ExtEnv`, `LMOutcome`); the repository's own
  code that consumes them is translated faithfully.
* Python regular expressions are compiled to a small backtracking matcher
  (`RE`, `reMatch`) with greedy star/backtracking semantics; each pattern of
  the source is transcribed node by node.
-/

/-- Python `round` to an integer: round half to even (banker's rounding),
on an exact rational value. -/
def roundHalfEven (x : ℚ) : ℤ :=
  if x - (⌊x⌋ : ℚ) < 1/2 then ⌊x⌋
  else if 1/2 < x - (⌊x⌋ : ℚ) then ⌊x⌋ + 1
  else if ⌊x⌋ % 2 = 0 then ⌊x⌋ else ⌊x⌋ + 1

/-- Python `round(x, d)` for `d` decimal digits. -/
def pyRound (x : ℚ) (d : ℕ) : ℚ :=
  (roundHalfEven (x * 10 ^ d) : ℚ) / 10 ^ d

/-- The whitespace characters of Python's `str.split()` / `\s` (ASCII). -/
def pyIsSpaceChar (c : Char) : Bool :=
  c == ' ' || c == '\t' || c == '\n' || c == '\r' || c == '\x0b' || c == '\x0c'

/-- Worker for `pySplitWhitespace`: accumulate the current word (reversed)
and emit it at each whitespace run or at the end. -/
def splitWSAux : List Char → List Char → List String
  | [], acc => if acc = [] then [] else [String.mk acc.reverse]
  | c :: rest, acc =>
    if pyIsSpaceChar c then
      if acc = [] then splitWSAux rest []
      else String.mk acc.reverse :: splitWSAux rest []
    else splitWSAux rest (c :: acc)

/-- Python `str.split()` with no argument: split on whitespace runs,
discarding empty pieces. -/
def pySplitWhitespace (s : String) : List String :=
  splitWSAux s.toList []

/-- Python `str.lower()` (ASCII), written over the character list so that
it evaluates by kernel reduction. -/
def pyLower (s : String) : String :=
  String.mk (s.toList.map Char.toLower)

/-- The word characters of Python's `\w` (ASCII). -/
def pyIsWordChar (c : Char) : Bool :=
  c.isAlphanum || c == '_'

/-- Python `str.isdigit` (ASCII): nonempty and all digits. -/
def pyIsDigitStr (s : String) : Bool :=
  s.length > 0 && s.toList.all Char.isDigit

/-- Python substring containment `needle in hay` on character lists. -/
def charsContains (needle hay : List Char) : Bool :=
  (List.range (hay.length + 1)).any (fun i => needle.isPrefixOf (hay.drop i))

/-- Python substring containment `needle in hay` on strings. -/
def strContains (hay needle : String) : Bool :=
  charsContains needle.toList hay.toList

/-- Insert keeping the accumulated list sorted ascending by the rational key,
placing the new element after equal keys (stability, as Python `sorted`). -/
def insertAscQ (x : String × ℚ) : List (String × ℚ) → List (String × ℚ)
  | [] => [x]
  | y :: ys => if y.2 ≤ x.2 then y :: insertAscQ x ys else x :: y :: ys

/-- Stable ascending sort by the rational key (Python's `sorted` with
`key=lambda x: x[1]`). -/
def stableSortAscQ (l : List (String × ℚ)) : List (String × ℚ) :=
  l.foldl (fun acc x => insertAscQ x acc) []

/-- Insert keeping the accumulated list sorted descending by count, placing
the new element after equal counts (stability, as `Counter.most_common`). -/
def insertDescN (x : String × ℕ) : List (String × ℕ) → List (String × ℕ)
  | [] => [x]
  | y :: ys => if x.2 ≤ y.2 then y :: insertDescN x ys else x :: y :: ys

/-- Stable descending sort by count. -/
def stableSortDescN (l : List (String × ℕ)) : List (String × ℕ) :=
  l.foldl (fun acc x => insertDescN x acc) []

/-- Deduplication keeping the first occurrence of each element (the key
order of a Python `Counter` / insertion-ordered dict). -/
def firstOccDedup (seen : List String) : List String → List String
  | [] => []
  | x :: xs =>
    if x ∈ seen then firstOccDedup seen xs
    else x :: firstOccDedup (x :: seen) xs

/-- Number of occurrences of a token in a token list. -/
def countOcc (tokens : List String) (w : String) : ℕ :=
  (tokens.filter (fun t => t == w)).length

/-- `CVAnalyzer._analyze_structure`'s result record (`structure_analysis`). -/
structure StructureAnalysis where
  has_contact_info : Bool
  has_summary : Bool
  has_experience : Bool
  has_education : Bool
  has_skills : Bool
  uses_bullet_points : Bool
  has_quantified_achievements : Bool
  appropriate_length : Bool
  section_count : ℕ
  formatting_issues : List String

/-- The analysis record produced by `OllamaClient` parsing / the fallbacks of
`CVAnalyzer._get_ai_analysis`. `sections` is the parsed section dict. -/
structure AIAnalysis where
  score : ℤ
  analysis_text : String
  sections : List (String × String)

/-- A suggestion of `CVAnalyzer._generate_suggestions`. The `description`
field of the source is a presentation f-string (its keyword enumeration
iterates a Python `set`, whose order the language does not fix) and is not
consumed by any scoring code; it is omitted from the model. -/
structure Suggestion where
  title : String
  priority : String
  category : String

/-- The complete analysis record returned by `CVAnalyzer.analyze_cv` and
consumed by `ScoringSystem.calculate_overall_score`. -/
structure AnalysisResults where
  ats_score : ℚ
  keyword_match_percentage : ℚ
  matched_keywords : Finset String
  missing_keywords : Finset String
  technical_skills_match : Finset String
  missing_technical_skills : Finset String
  structure_analysis : StructureAnalysis
  suggestions : List Suggestion
  ai_analysis : AIAnalysis
  readability_score : ℚ
  word_count : ℕ
  sections_detected : Finset String
  enhancement_opportunities : List String

/-- The five component scores (`scores` dict of `calculate_overall_score`,
in its insertion order: keyword_match, structure, content_quality,
technical_skills, formatting). `structure_score` renders the Python key
named `structure`, which is a Lean keyword. -/
structure ComponentScores where
  keyword_match : ℚ
  structure_score : ℚ
  content_quality : ℚ
  technical_skills : ℚ
  formatting : ℚ

/-- `ScoringSystem.calculate_overall_score`'s breakdown record. -/
structure ScoreBreakdown where
  overall_score : ℚ
  component_scores : ComponentScores
  grade : String
  percentile : ℕ
  improvement_potential : ℚ
  strengths : List String
  weaknesses : List String
  next_steps : List String

/-- `ScoringSystem.__init__`: the fixed component weights. -/
def weights : List (String × ℚ) :=
  [("keyword_match", 0.35), ("structure", 0.25), ("content_quality", 0.20),
   ("technical_skills", 0.15), ("formatting", 0.05)]

/-- `ScoringSystem._calculate_keyword_score`. -/
def calculate_keyword_score (analysis : AnalysisResults) : ℚ :=
  let match_percentage := analysis.keyword_match_percentage
  if match_percentage ≥ 80 then 95
  else if match_percentage ≥ 60 then 85
  else if match_percentage ≥ 40 then 70
  else if match_percentage ≥ 20 then 50
  else 30

/-- `ScoringSystem._calculate_structure_score`. -/
def calculate_structure_score (analysis : AnalysisResults) : ℚ :=
  let s := analysis.structure_analysis
  let score : ℚ :=
    (if s.has_contact_info then 10 else 0) +
    (if s.has_summary then 10 else 0) +
    (if s.has_experience then 15 else 0) +
    (if s.has_education then 5 else 0) +
    (if s.has_skills then 10 else 0) +
    (if s.uses_bullet_points then 10 else 0) +
    (if s.has_quantified_achievements then 10 else 0) +
    (if s.appropriate_length then 15 else 0) +
    (if s.section_count ≥ 5 then 15
     else if s.section_count ≥ 3 then 10
     else if s.section_count ≥ 2 then 5 else 0)
  min score 100

/-- `ScoringSystem._calculate_content_score`. -/
def calculate_content_score (analysis : AnalysisResults) : ℚ :=
  let readability := analysis.readability_score
  let s1 : ℚ := 50 +
    (if readability ≥ 60 then 20 else if readability ≥ 40 then 10 else 0)
  let word_count := analysis.word_count
  let s2 := s1 +
    (if 300 ≤ word_count ∧ word_count ≤ 800 then 15
     else if 200 ≤ word_count ∧ word_count ≤ 1000 then 10 else 5)
  let penalty := min ((analysis.enhancement_opportunities.length : ℚ) * 3) 15
  max (min (s2 - penalty) 100) 0

/-- `ScoringSystem._calculate_technical_score`. -/
def calculate_technical_score (analysis : AnalysisResults) : ℚ :=
  let matched_tech := analysis.technical_skills_match.card
  let missing_tech := analysis.missing_technical_skills.card
  if matched_tech + missing_tech = 0 then 70
  else
    let match_ratio : ℚ := (matched_tech : ℚ) / ((matched_tech : ℚ) + (missing_tech : ℚ))
    if match_ratio ≥ 0.8 then 95
    else if match_ratio ≥ 0.6 then 85
    else if match_ratio ≥ 0.4 then 70
    else if match_ratio ≥ 0.2 then 55
    else 35

/-- `ScoringSystem._calculate_formatting_score`. -/
def calculate_formatting_score (analysis : AnalysisResults) : ℚ :=
  let formatting_issues := analysis.structure_analysis.formatting_issues
  let score : ℚ := 100 - (formatting_issues.length : ℚ) * 15
  max (min score 100) 0

/-- `ScoringSystem._get_grade`. -/
def get_grade (score : ℚ) : String :=
  if score ≥ 90 then "A+"
  else if score ≥ 85 then "A"
  else if score ≥ 80 then "A-"
  else if score ≥ 75 then "B+"
  else if score ≥ 70 then "B"
  else if score ≥ 65 then "B-"
  else if score ≥ 60 then "C+"
  else if score ≥ 55 then "C"
  else if score ≥ 50 then "C-"
  else "D"

/-- The ordering of the letter grades of `_get_grade`, high to low:
A+ > A > A- > B+ > B > B- > C+ > C > C- > D (numeric rank, D = 0). -/
def gradeRank (g : String) : ℕ :=
  if g = "A+" then 9
  else if g = "A" then 8
  else if g = "A-" then 7
  else if g = "B+" then 6
  else if g = "B" then 5
  else if g = "B-" then 4
  else if g = "C+" then 3
  else if g = "C" then 2
  else if g = "C-" then 1
  else 0

/-- `ScoringSystem._calculate_percentile`. -/
def calculate_percentile (score : ℚ) : ℕ :=
  if score ≥ 85 then 95
  else if score ≥ 75 then 80
  else if score ≥ 65 then 60
  else if score ≥ 55 then 40
  else 20

/-- The `scores` dict as a key/value list, in its Python insertion order. -/
def componentItems (s : ComponentScores) : List (String × ℚ) :=
  [("keyword_match", s.keyword_match), ("structure", s.structure_score),
   ("content_quality", s.content_quality), ("technical_skills", s.technical_skills),
   ("formatting", s.formatting)]

/-- The fixed per-component strength messages of `_identify_strengths`. -/
def strengthMessage (component : String) : String :=
  if component = "keyword_match" then "Excellent keyword optimization for ATS systems"
  else if component = "structure" then "Well-organized CV with all essential sections"
  else if component = "content_quality" then "High-quality, readable content with good flow"
  else if component = "technical_skills" then "Strong technical skills alignment with job requirements"
  else if component = "formatting" then "ATS-friendly formatting and structure"
  else "Strong " ++ component

/-- Python `max(items, key=...)`: the first element with the maximal key. -/
def maxByScoreFirst (items : List (String × ℚ)) : Option (String × ℚ) :=
  items.foldl
    (fun acc p =>
      match acc with
      | none => some p
      | some q => if p.2 > q.2 then some p else some q)
    none

/-- `ScoringSystem._identify_strengths`. -/
def identify_strengths (scores : ComponentScores) : List String :=
  let strengths := (componentItems scores).filterMap
    (fun p => if p.2 ≥ 80 then some (strengthMessage p.1) else none)
  if strengths.isEmpty then
    match maxByScoreFirst (componentItems scores) with
    | some best => ["Relatively strong " ++ best.1.replace "_" " "]
    | none => []
  else strengths

/-- The fixed per-component weakness messages of `_identify_weaknesses`. -/
def weaknessMessage (component : String) : String :=
  if component = "keyword_match" then "Low keyword matching - missing important job-related terms"
  else if component = "structure" then "CV structure needs improvement - missing key sections"
  else if component = "content_quality" then "Content quality could be enhanced with better writing"
  else if component = "technical_skills" then "Technical skills section needs strengthening"
  else if component = "formatting" then "Formatting issues may cause ATS parsing problems"
  else "Weak " ++ component

/-- `ScoringSystem._identify_weaknesses`. -/
def identify_weaknesses (scores : ComponentScores) : List String :=
  (componentItems scores).filterMap
    (fun p => if p.2 < 60 then some (weaknessMessage p.1) else none)

/-- The canned recommendation strings of `_generate_next_steps`. -/
def stepRecommendations (component : String) : List String :=
  if component = "keyword_match" then
    ["Review job description and identify missing keywords",
     "Naturally incorporate relevant keywords throughout your CV",
     "Focus on industry-specific terminology and skills"]
  else if component = "structure" then
    ["Add missing essential sections (contact, summary, experience, education)",
     "Reorganize content with clear section headers",
     "Use consistent formatting throughout"]
  else if component = "content_quality" then
    ["Quantify achievements with specific numbers and metrics",
     "Use strong action verbs to start bullet points",
     "Improve clarity and conciseness of descriptions"]
  else if component = "technical_skills" then
    ["Add relevant technical skills mentioned in job posting",
     "Create dedicated skills section if missing",
     "Provide context for how you used technical skills"]
  else if component = "formatting" then
    ["Use simple, ATS-friendly formatting",
     "Avoid tables, graphics, and unusual fonts",
     "Ensure consistent spacing and alignment"]
  else []

/-- `ScoringSystem._generate_next_steps`. -/
def generate_next_steps (scores : ComponentScores) : List String :=
  let sorted_components := stableSortAscQ (componentItems scores)
  let next_steps := (sorted_components.take 3).foldl
    (fun acc p =>
      if p.2 < 80 then
        let recommendations := stepRecommendations p.1
        if recommendations ≠ [] then acc ++ recommendations.take 2 else acc
      else acc)
    []
  next_steps.take 5

/-- The keyword dictionaries produced by `KeywordExtractor`
(`extract_keywords_from_cv` / `extract_keywords_from_job_description`).
`technical_skills` goes through Python's `list(set(...))`, whose order the
language does not fix, so it is a `Finset`. The presentation-only fields
`requirements`, `qualifications`, `soft_skills` and `action_verbs` are not
consumed by the analysis/scoring pipeline and are omitted. -/
structure KeywordDict where
  all_keywords : List String := []
  technical_skills : Finset String := ∅
  achievements : List String := []

/-- `KeywordExtractor._calculate_keyword_density`'s record. -/
structure KeywordDensity where
  cv_keyword_count : ℕ
  job_keyword_count : ℕ
  density_ratio : ℚ

/-- `KeywordExtractor.compare_keywords`'s record. The four keyword fields go
through Python `set`s, hence `Finset`. -/
structure ComparisonResult where
  matched_keywords : Finset String
  missing_keywords : Finset String
  matched_technical : Finset String
  missing_technical : Finset String
  match_percentage : ℚ
  keyword_density : KeywordDensity

/-- `KeywordExtractor._calculate_keyword_density`. -/
def calculate_keyword_density (cv_keywords job_keywords : KeywordDict) : KeywordDensity :=
  let cv_total := cv_keywords.all_keywords.length
  let job_total := job_keywords.all_keywords.length
  { cv_keyword_count := cv_total
    job_keyword_count := job_total
    density_ratio :=
      if 0 < job_total then pyRound ((cv_total : ℚ) / (job_total : ℚ)) 2 else 0 }

/-- `KeywordExtractor.compare_keywords`. -/
def compare_keywords (cv_keywords job_keywords : KeywordDict) : ComparisonResult :=
  let cv_all := (cv_keywords.all_keywords.map pyLower).toFinset
  let job_all := (job_keywords.all_keywords.map pyLower).toFinset
  let cv_tech := cv_keywords.technical_skills.image pyLower
  let job_tech := job_keywords.technical_skills.image pyLower
  let matched_keywords := cv_all ∩ job_all
  let missing_keywords := job_all \ cv_all
  let matched_technical := cv_tech ∩ job_tech
  let missing_technical := job_tech \ cv_tech
  let total_important_keywords := job_all.card
  let matched_count := matched_keywords.card
  let match_percentage : ℚ :=
    if 0 < total_important_keywords then
      (matched_count : ℚ) / (total_important_keywords : ℚ) * 100
    else 0
  { matched_keywords := matched_keywords
    missing_keywords := missing_keywords
    matched_technical := matched_technical
    missing_technical := missing_technical
    match_percentage := pyRound match_percentage 2
    keyword_density := calculate_keyword_density cv_keywords job_keywords }

/-- `KeywordExtractor.__init__`: the curated technical-skill taxonomy
(`self.technical_skills`), as an insertion-ordered category list. -/
def technical_skills_taxonomy : List (String × List String) :=
  [("programming",
    ["python", "java", "javascript", "typescript", "c++", "c#", "php", "ruby", "go",
     "rust", "swift", "kotlin", "scala", "perl", "r", "matlab", "julia", "dart",
     "elixir", "haskell"]),
   ("web",
    ["html", "css", "sass", "less", "react", "vue", "angular", "svelte", "next.js",
     "nuxt.js", "node.js", "express", "django", "flask", "fastapi", "spring",
     "asp.net", "laravel", "rails", "graphql", "rest api", "webpack", "vite"]),
   ("mobile",
    ["ios", "android", "react native", "flutter", "xamarin", "ionic", "swift",
     "kotlin", "objective-c"]),
   ("data",
    ["sql", "nosql", "mongodb", "postgresql", "mysql", "redis", "cassandra",
     "elasticsearch", "oracle", "sql server", "sqlite", "mariadb", "dynamodb",
     "neo4j", "firebase"]),
   ("data_science",
    ["pandas", "numpy", "scikit-learn", "tensorflow", "pytorch", "keras", "opencv",
     "nlp", "computer vision", "machine learning", "deep learning", "data mining",
     "tableau", "power bi", "apache spark", "hadoop", "airflow", "dbt", "jupyter"]),
   ("cloud",
    ["aws", "azure", "gcp", "heroku", "digitalocean", "linode", "cloudflare", "s3",
     "ec2", "lambda", "ecs", "fargate", "cloud functions", "app engine"]),
   ("devops",
    ["docker", "kubernetes", "terraform", "ansible", "jenkins", "gitlab ci",
     "github actions", "circleci", "travis ci", "prometheus", "grafana", "elk stack",
     "nginx", "apache", "ci/cd", "helm", "vagrant", "puppet", "chef"]),
   ("tools",
    ["git", "github", "gitlab", "bitbucket", "jira", "confluence", "trello", "asana",
     "slack", "teams", "figma", "sketch", "adobe xd", "photoshop", "illustrator",
     "excel", "vscode", "intellij", "postman", "swagger"]),
   ("testing",
    ["junit", "pytest", "jest", "mocha", "selenium", "cypress", "playwright",
     "testng", "cucumber", "unit testing", "integration testing", "e2e testing",
     "tdd", "bdd"]),
   ("security",
    ["oauth", "jwt", "ssl", "tls", "encryption", "penetration testing",
     "vulnerability assessment", "firewall", "vpn", "siem", "ids", "ips", "sso",
     "ldap", "active directory"]),
   ("blockchain",
    ["blockchain", "ethereum", "solidity", "web3", "smart contracts", "defi", "nft",
     "cryptocurrency"]),
   ("ai_ml",
    ["artificial intelligence", "machine learning", "neural networks",
     "decision trees", "random forest", "svm", "clustering", "regression",
     "classification", "reinforcement learning", "transfer learning",
     "model deployment", "mlops"]),
   ("business",
    ["crm", "erp", "salesforce", "sap", "dynamics", "oracle", "peoplesoft",
     "workday", "quickbooks", "hubspot"]),
   ("methodologies",
    ["agile", "scrum", "kanban", "waterfall", "lean", "six sigma", "devops", "itil",
     "prince2", "pmp", "safe"]),
   ("design",
    ["ui/ux", "user experience", "user interface", "wireframing", "prototyping",
     "responsive design", "mobile-first", "accessibility", "design systems",
     "interaction design", "usability testing"]),
   ("networking",
    ["tcp/ip", "dns", "dhcp", "vpn", "routing", "switching", "load balancing",
     "cdn", "http", "https", "ftp", "ssh", "lan", "wan"]),
   ("analytics",
    ["google analytics", "mixpanel", "amplitude", "segment", "a/b testing",
     "conversion optimization", "data visualization", "kpi", "metrics",
     "reporting"]),
   ("ecommerce",
    ["shopify", "magento", "woocommerce", "stripe", "paypal", "payment gateway",
     "inventory management", "order fulfillment"]),
   ("content",
    ["cms", "wordpress", "drupal", "contentful", "sanity", "strapi", "seo", "sem",
     "content strategy", "copywriting"]),
   ("iot",
    ["iot", "raspberry pi", "arduino", "mqtt", "embedded systems", "sensors",
     "edge computing"])]

/-- `KeywordExtractor._extract_technical_skills`: case-insensitive substring
match of every taxonomy skill against the text; the source wraps the found
list in `list(set(...))`, modelled by `toFinset`. -/
def extract_technical_skills (text : String) : Finset String :=
  let text_lower := pyLower text
  let found_skills := technical_skills_taxonomy.foldl
    (fun acc category => acc ++ category.2.filter (fun skill => strContains text_lower skill))
    []
  found_skills.toFinset

/-- `KeywordExtractor._clean_text`: lowercase, replace every character
outside `\w`/`\s` by a space, collapse whitespace runs to single spaces,
strip. `collapseWSAux` performs the `re.sub(r'\s+', ' ', ...)` step. -/
def collapseWSAux (prevWS : Bool) : List Char → List Char
  | [] => []
  | c :: rest =>
    if pyIsSpaceChar c then
      if prevWS then collapseWSAux true rest
      else ' ' :: collapseWSAux true rest
    else c :: collapseWSAux false rest

/-- Python `str.strip()` on a character list. -/
def pyStripChars (l : List Char) : List Char :=
  ((l.dropWhile (fun c => pyIsSpaceChar c)).reverse.dropWhile
    (fun c => pyIsSpaceChar c)).reverse

/-- `KeywordExtractor._clean_text`. -/
def clean_text (text : String) : String :=
  let replaced := (pyLower text).toList.map
    (fun c => if pyIsWordChar c || pyIsSpaceChar c then c else ' ')
  String.mk (pyStripChars (collapseWSAux false replaced))

/-- The external collaborators the extractor and analyzer consume: the NLTK
tokenizer and English stopword corpus, and the textstat readability call
(`none` models the library raising, handled by `_calculate_readability`). -/
structure ExtEnv where
  word_tokenize : String → List String
  stop_words : Finset String
  flesch_reading_ease : String → Option ℚ

/-- `KeywordExtractor._tokenize_and_filter`: tokenize (external), then keep
tokens that are not stopwords, have length > 2 and are not all-digit. -/
def tokenize_and_filter (env : ExtEnv) (text : String) : List String :=
  (env.word_tokenize text).filter
    (fun token =>
      decide (token ∉ env.stop_words) && decide (token.length > 2) &&
      !(pyIsDigitStr token))

/-- `KeywordExtractor._get_top_keywords`: the `top_n` most frequent tokens,
frequency descending, ties in first-encounter order (`Counter.most_common`). -/
def get_top_keywords (tokens : List String) (top_n : ℕ) : List String :=
  let distinct := firstOccDedup [] tokens
  let pairs := distinct.map (fun w => (w, countOcc tokens w))
  ((stableSortDescN pairs).take top_n).map Prod.fst

/-- `ScoringSystem.calculate_overall_score`. -/
def calculate_overall_score (analysis_results : AnalysisResults) : ScoreBreakdown :=
  let scores : ComponentScores :=
    { keyword_match := calculate_keyword_score analysis_results
      structure_score := calculate_structure_score analysis_results
      content_quality := calculate_content_score analysis_results
      technical_skills := calculate_technical_score analysis_results
      formatting := calculate_formatting_score analysis_results }
  let overall_score :=
    scores.keyword_match * 0.35 + scores.structure_score * 0.25 +
    scores.content_quality * 0.20 + scores.technical_skills * 0.15 +
    scores.formatting * 0.05
  { overall_score := pyRound overall_score 1
    component_scores := scores
    grade := get_grade overall_score
    percentile := calculate_percentile overall_score
    improvement_potential := 100 - overall_score
    strengths := identify_strengths scores
    weaknesses := identify_weaknesses scores
    next_steps := generate_next_steps scores }

/-- A small regular-expression AST, the target into which the source's
`re` patterns are compiled node by node. `cls` is a character class,
`lineStart` is `^` under `re.MULTILINE`, `wordBoundary` is `\b`. -/
inductive RE where
  | eps : RE
  | cls : (Char → Bool) → RE
  | seq : RE → RE → RE
  | alt : RE → RE → RE
  | star : RE → RE
  | group : RE → RE
  | lineStart : RE
  | wordBoundary : RE

/-- Sequence a list of nodes. -/
def RE.chain : List RE → RE
  | [] => .eps
  | [r] => r
  | r :: rs => .seq r (RE.chain rs)

/-- `r+`. -/
def RE.plus (r : RE) : RE := .seq r (.star r)

/-- `r?` (greedy: try `r` first, as Python). -/
def RE.opt (r : RE) : RE := .alt r .eps

/-- A literal character sequence. -/
def RE.lit (cs : List Char) : RE :=
  RE.chain (cs.map (fun c => RE.cls (fun x => x == c)))

/-- `^` test under `re.MULTILINE`: position 0 or just after a newline. -/
def atLineStart (s : List Char) (i : ℕ) : Bool :=
  i == 0 || (i ≤ s.length && s.getD (i - 1) ' ' == '\n')

/-- `\b` test: word-character-ness differs on the two sides of position `i`
(out of range counts as non-word). -/
def atWordBoundary (s : List Char) (i : ℕ) : Bool :=
  let before := if i == 0 then false else pyIsWordChar (s.getD (i - 1) ' ')
  let after :=
    match s.drop i with
    | [] => false
    | c :: _ => pyIsWordChar c
  before != after

/-- Backtracking matcher in continuation-passing style, with the greedy
(longest-first) star and alternation order of Python's `re`. The state is a
position `i` into the fixed input `s` plus the span of the last capturing
group; `fuel` bounds the recursion depth. -/
def reMatch (s : List Char) :
    ℕ → RE → ℕ → Option (ℕ × ℕ) →
    (ℕ → Option (ℕ × ℕ) → Option (ℕ × Option (ℕ × ℕ))) →
    Option (ℕ × Option (ℕ × ℕ))
  | 0, _, _, _, _ => none
  | fuel + 1, r, i, cap, k =>
    match r with
    | .eps => k i cap
    | .cls p =>
      match s.drop i with
      | [] => none
      | c :: _ => if p c then k (i + 1) cap else none
    | .seq a b => reMatch s fuel a i cap (fun j cap2 => reMatch s fuel b j cap2 k)
    | .alt a b =>
      match reMatch s fuel a i cap k with
      | some res => some res
      | none => reMatch s fuel b i cap k
    | .star a =>
      match reMatch s fuel a i cap
          (fun j cap2 => if i < j then reMatch s fuel (.star a) j cap2 k else none) with
      | some res => some res
      | none => k i cap
    | .group a => reMatch s fuel a i cap (fun j _ => k j (some (i, j)))
    | .lineStart => if atLineStart s i then k i cap else none
    | .wordBoundary => if atWordBoundary s i then k i cap else none

/-- Try to match `r` at position `i`; returns the end of the match and the
captured group span. -/
def reSearchAt (r : RE) (s : List Char) (i : ℕ) : Option (ℕ × Option (ℕ × ℕ)) :=
  reMatch s (40 * (s.length + 10)) r i none (fun j cap => some (j, cap))

/-- Python `re.search(...) is not None`. -/
def reSearch (r : RE) (s : List Char) : Bool :=
  (List.range (s.length + 1)).any (fun i => (reSearchAt r s i).isSome)

/-- Python `re.findall`: scan left to right through non-overlapping matches;
each match contributes its group 1 when the pattern has a group, else the
whole match. -/
def reFindallAux (r : RE) (s : List Char) : ℕ → ℕ → List String
  | 0, _ => []
  | fuel + 1, i =>
    if i > s.length then []
    else
      match reSearchAt r s i with
      | some (j, cap) =>
        let captured :=
          match cap with
          | some (a, b) => String.mk ((s.drop a).take (b - a))
          | none => String.mk ((s.drop i).take (j - i))
        captured :: reFindallAux r s fuel (if i < j then j else i + 1)
      | none => reFindallAux r s fuel (i + 1)

/-- Python `re.findall` over the whole input. -/
def reFindall (r : RE) (s : List Char) : List String :=
  reFindallAux r s (s.length + 1) 0

/-- Character-class helpers for the compiled patterns. -/
def reDigit : RE := RE.cls Char.isDigit

/-- `\w`. -/
def reWord : RE := RE.cls pyIsWordChar

/-- `\s`. -/
def reSpace : RE := RE.cls pyIsSpaceChar

/-- `.` without `re.DOTALL`: any character except a newline. -/
def reDot : RE := RE.cls (fun c => c != '\n')

/-- `KeywordExtractor._extract_achievements`'s five patterns, compiled:
`(\d+)%\s+\w+`, `increased\s+\w+\s+by\s+(\d+)`, `reduced\s+\w+\s+by\s+(\d+)`,
`managed\s+(\d+)\s+\w+`, `led\s+(\d+)\s+\w+`. -/
def achievementPatterns : List RE :=
  [RE.chain [.group (RE.plus reDigit), .cls (fun c => c == '%'), RE.plus reSpace,
             RE.plus reWord],
   RE.chain [RE.lit "increased".toList, RE.plus reSpace, RE.plus reWord,
             RE.plus reSpace, RE.lit "by".toList, RE.plus reSpace,
             .group (RE.plus reDigit)],
   RE.chain [RE.lit "reduced".toList, RE.plus reSpace, RE.plus reWord,
             RE.plus reSpace, RE.lit "by".toList, RE.plus reSpace,
             .group (RE.plus reDigit)],
   RE.chain [RE.lit "managed".toList, RE.plus reSpace, .group (RE.plus reDigit),
             RE.plus reSpace, RE.plus reWord],
   RE.chain [RE.lit "led".toList, RE.plus reSpace, .group (RE.plus reDigit),
             RE.plus reSpace, RE.plus reWord]]

/-- `KeywordExtractor._extract_achievements`: `re.findall` of each pattern
with `re.IGNORECASE` (modelled by matching on the lowercased text; every
captured group is a digit string, unaffected by case), concatenated in
pattern order, first 10 kept. -/
def extract_achievements (cv_text : String) : List String :=
  let s := (pyLower cv_text).toList
  (achievementPatterns.foldl (fun acc p => acc ++ reFindall p s) []).take 10

/-- `KeywordExtractor.extract_keywords_from_cv` (its pipeline-consumed
fields; `top_n` is left at its default 20). -/
def extract_keywords_from_cv (env : ExtEnv) (cv_text : String) : KeywordDict :=
  let cleaned_text := clean_text cv_text
  let tokens := tokenize_and_filter env cleaned_text
  { all_keywords := get_top_keywords tokens 20
    technical_skills := extract_technical_skills cv_text
    achievements := extract_achievements cv_text }

/-- `KeywordExtractor.extract_keywords_from_job_description` (its
pipeline-consumed fields). -/
def extract_keywords_from_job_description (env : ExtEnv) (job_description : String) :
    KeywordDict :=
  let cleaned_text := clean_text job_description
  let tokens := tokenize_and_filter env cleaned_text
  { all_keywords := get_top_keywords tokens 20
    technical_skills := extract_technical_skills job_description }

/-- `CVAnalyzer._has_contact_info`'s email pattern
`\b[A-Za-z0-9._%+-]+@[A-Za-z0-9.-]+\.[A-Z|a-z]{2,}\b`, compiled. The class
`[A-Z|a-z]` of the source literally includes `|`. -/
def emailRE : RE :=
  let localClass := RE.cls (fun c => c.isAlphanum || c == '.' || c == '_' ||
    c == '%' || c == '+' || c == '-')
  let domainClass := RE.cls (fun c => c.isAlphanum || c == '.' || c == '-')
  let tldClass := RE.cls (fun c => c.isAlpha || c == '|')
  RE.chain [.wordBoundary, RE.plus localClass, .cls (fun c => c == '@'),
            RE.plus domainClass, .cls (fun c => c == '.'), tldClass, tldClass,
            .star tldClass, .wordBoundary]

/-- `CVAnalyzer._has_contact_info`'s phone pattern
`(\+?\d{1,3}[-.\s]?)?\(?\d{3}\)?[-.\s]?\d{3}[-.\s]?\d{4}`, compiled. -/
def phoneRE : RE :=
  let sep := RE.cls (fun c => c == '-' || c == '.' || pyIsSpaceChar c)
  let d := reDigit
  let countryCode := RE.group (RE.chain
    [RE.opt (.cls (fun c => c == '+')), d, RE.opt d, RE.opt d, RE.opt sep])
  RE.chain [RE.opt countryCode, RE.opt (.cls (fun c => c == '(')),
            d, d, d, RE.opt (.cls (fun c => c == ')')), RE.opt sep,
            d, d, d, RE.opt sep, d, d, d, d]

/-- `CVAnalyzer._has_contact_info`. -/
def has_contact_info (cv_text : String) : Bool :=
  let s := cv_text.toList
  reSearch emailRE s || reSearch phoneRE s

/-- `CVAnalyzer._has_summary_section`. -/
def has_summary_section (cv_text : String) : Bool :=
  let cv_lower := pyLower cv_text
  ["summary", "profile", "objective", "about me"].any
    (fun keyword => strContains cv_lower keyword)

/-- `CVAnalyzer._has_experience_section`. -/
def has_experience_section (cv_text : String) : Bool :=
  let cv_lower := pyLower cv_text
  ["experience", "employment", "work history", "professional experience"].any
    (fun keyword => strContains cv_lower keyword)

/-- `CVAnalyzer._has_education_section`. -/
def has_education_section (cv_text : String) : Bool :=
  let cv_lower := pyLower cv_text
  ["education", "academic", "qualifications", "degree"].any
    (fun keyword => strContains cv_lower keyword)

/-- `CVAnalyzer._has_skills_section`. -/
def has_skills_section (cv_text : String) : Bool :=
  let cv_lower := pyLower cv_text
  ["skills", "technical skills", "competencies", "expertise"].any
    (fun keyword => strContains cv_lower keyword)

/-- `CVAnalyzer._uses_bullet_points`'s three patterns (`[•\-\*]`,
`^\s*[-*+]\s`, `^\s*\d+\.\s`), searched with `re.MULTILINE`. -/
def bulletPatterns : List RE :=
  [.cls (fun c => c == '•' || c == '-' || c == '*'),
   RE.chain [.lineStart, .star reSpace,
             .cls (fun c => c == '-' || c == '*' || c == '+'), reSpace],
   RE.chain [.lineStart, .star reSpace, RE.plus reDigit,
             .cls (fun c => c == '.'), reSpace]]

/-- `CVAnalyzer._uses_bullet_points`. -/
def uses_bullet_points (cv_text : String) : Bool :=
  bulletPatterns.any (fun p => reSearch p cv_text.toList)

/-- `CVAnalyzer._has_quantified_achievements`'s patterns (`\d+%`, `\$\d+`,
`\d+\s*(million|thousand|k)`, `increased.*\d+`, `reduced.*\d+`,
`managed.*\d+`), compiled. -/
def quantifiedPatterns : List RE :=
  [RE.chain [RE.plus reDigit, .cls (fun c => c == '%')],
   RE.chain [.cls (fun c => c == '$'), RE.plus reDigit],
   RE.chain [RE.plus reDigit, .star reSpace,
             .group (.alt (RE.lit "million".toList)
                      (.alt (RE.lit "thousand".toList) (RE.lit "k".toList)))],
   RE.chain [RE.lit "increased".toList, .star reDot, RE.plus reDigit],
   RE.chain [RE.lit "reduced".toList, .star reDot, RE.plus reDigit],
   RE.chain [RE.lit "managed".toList, .star reDot, RE.plus reDigit]]

/-- `CVAnalyzer._has_quantified_achievements` (all searches carry
`re.IGNORECASE`, modelled by matching on the lowercased text). -/
def has_quantified_achievements (cv_text : String) : Bool :=
  let s := (pyLower cv_text).toList
  quantifiedPatterns.any (fun p => reSearch p s)

/-- `CVAnalyzer._check_length`: whitespace word count within [200, 1000]. -/
def check_length (cv_text : String) : Bool :=
  let word_count := (pySplitWhitespace cv_text).length
  decide (200 ≤ word_count ∧ word_count ≤ 1000)

/-- `CVAnalyzer._detect_sections`: the fixed section keyword list, substring
matched; the source's `list(set(...))` is modelled by `toFinset`. -/
def detect_sections (cv_text : String) : Finset String :=
  let section_keywords :=
    ["summary", "profile", "objective", "about",
     "experience", "employment", "work history",
     "education", "academic", "qualifications",
     "skills", "technical skills", "competencies",
     "projects", "certifications", "achievements"]
  let cv_lower := pyLower cv_text
  (section_keywords.filter (fun keyword => strContains cv_lower keyword)).toFinset

/-- `CVAnalyzer._detect_formatting_issues`'s three counting patterns
(`[A-Z]{3,}`, `\s{3,}`, `[^\w\s.,;:()\-@]`), compiled. -/
def capsRunRE : RE :=
  let u := RE.cls Char.isUpper
  RE.chain [u, u, u, .star u]

/-- `\s{3,}`. -/
def spaceRunRE : RE :=
  RE.chain [reSpace, reSpace, reSpace, .star reSpace]

/-- `[^\w\s.,;:()\-@]`. -/
def specialCharRE : RE :=
  .cls (fun c => !(pyIsWordChar c || pyIsSpaceChar c || c == '.' || c == ',' ||
    c == ';' || c == ':' || c == '(' || c == ')' || c == '-' || c == '@'))

/-- `CVAnalyzer._detect_formatting_issues`. -/
def detect_formatting_issues (cv_text : String) : List String :=
  let s := cv_text.toList
  (if (reFindall capsRunRE s).length > 10
   then ["Excessive capitalization detected"] else [])
  ++ (if (reFindall spaceRunRE s).length > 5
      then ["Inconsistent spacing detected"] else [])
  ++ (if (reFindall specialCharRE s).length > 20
      then ["Too many special characters"] else [])

/-- `CVAnalyzer._has_action_verbs` (the analyzer's own small verb list). -/
def has_action_verbs (cv_text : String) : Bool :=
  let cv_lower := pyLower cv_text
  ["achieved", "managed", "led", "developed", "implemented", "created",
   "designed", "improved", "increased", "reduced", "optimized"].any
    (fun verb => strContains cv_lower verb)

/-- `CVAnalyzer._analyze_structure`. -/
def analyze_structure (cv_text : String) : StructureAnalysis :=
  { has_contact_info := has_contact_info cv_text
    has_summary := has_summary_section cv_text
    has_experience := has_experience_section cv_text
    has_education := has_education_section cv_text
    has_skills := has_skills_section cv_text
    uses_bullet_points := uses_bullet_points cv_text
    has_quantified_achievements := has_quantified_achievements cv_text
    appropriate_length := check_length cv_text
    section_count := (detect_sections cv_text).card
    formatting_issues := detect_formatting_issues cv_text }

/-- `CVAnalyzer._calculate_ats_score`. -/
def calculate_ats_score (cv_text _job_description : String)
    (keyword_comparison : ComparisonResult)
    (structure_analysis : StructureAnalysis) : ℚ :=
  let keyword_score := min keyword_comparison.match_percentage 40
  let structure_score : ℚ :=
    (if structure_analysis.has_contact_info then 5 else 0) +
    (if structure_analysis.has_summary then 3 else 0) +
    (if structure_analysis.has_experience then 5 else 0) +
    (if structure_analysis.has_education then 3 else 0) +
    (if structure_analysis.has_skills then 4 else 0) +
    (if structure_analysis.uses_bullet_points then 3 else 0) +
    (if structure_analysis.has_quantified_achievements then 4 else 0) +
    (if structure_analysis.appropriate_length then 3 else 0)
  let tech_skills_score : ℚ :=
    min ((keyword_comparison.matched_technical.card : ℚ) * 2) 20
  let content_score : ℚ :=
    (if has_action_verbs cv_text then 5 else 0) +
    (if 200 ≤ (pySplitWhitespace cv_text).length then 5 else 0)
  min (keyword_score + structure_score + tech_skills_score + content_score) 100

/-- The observable behaviour of the language-model collaborator for one
analysis call, as seen at the `CVAnalyzer._get_ai_analysis` boundary:
`is_connected()` false, the call raising, or a parsed analysis. -/
inductive LMOutcome where
  | disconnected : LMOutcome
  | raises : String → LMOutcome
  | ok : AIAnalysis → LMOutcome

/-- `CVAnalyzer._get_ai_analysis`: a total function — every collaborator
failure is converted to the fixed fallback record, nothing propagates. -/
def get_ai_analysis (lm : LMOutcome) : AIAnalysis :=
  match lm with
  | .ok result => result
  | .disconnected =>
    { score := 70
      analysis_text := "AI analysis unavailable - Ollama not connected"
      sections := [] }
  | .raises msg =>
    { score := 70
      analysis_text := "AI analysis error: " ++ msg
      sections := [] }

/-- `CVAnalyzer._generate_suggestions` (titles, priorities and categories;
the `description` presentation strings are omitted, see `Suggestion`). -/
def generate_suggestions (cv_text _job_description : String)
    (keyword_comparison : ComparisonResult)
    (structure_analysis : StructureAnalysis) : List Suggestion :=
  (if keyword_comparison.match_percentage < 50 then
    [{ title := "Improve Keyword Matching", priority := "high", category := "keywords" }]
   else [])
  ++ (if keyword_comparison.missing_technical ≠ ∅ then
       [{ title := "Add Technical Skills", priority := "high", category := "technical_skills" }]
      else [])
  ++ (if !structure_analysis.has_summary then
       [{ title := "Add Professional Summary", priority := "medium", category := "structure" }]
      else [])
  ++ (if !structure_analysis.uses_bullet_points then
       [{ title := "Use Bullet Points", priority := "medium", category := "formatting" }]
      else [])
  ++ (if !structure_analysis.has_quantified_achievements then
       [{ title := "Quantify Your Achievements", priority := "high", category := "content" }]
      else [])
  ++ (if !has_action_verbs cv_text then
       [{ title := "Use Strong Action Verbs", priority := "medium", category := "content" }]
      else [])
  ++ (let word_count := (pySplitWhitespace cv_text).length
      if word_count < 200 then
        [{ title := "Expand Content", priority := "medium", category := "content" }]
      else if word_count > 800 then
        [{ title := "Reduce Length", priority := "low", category := "content" }]
      else [])

/-- `CVAnalyzer._calculate_readability`: the external textstat call, with
the `except` branch returning 50.0. -/
def calculate_readability (env : ExtEnv) (cv_text : String) : ℚ :=
  (env.flesch_reading_ease cv_text).getD 50

/-- `CVAnalyzer._find_enhancement_opportunities`. -/
def find_enhancement_opportunities (cv_text _job_description : String) : List String :=
  let cv_lower := pyLower cv_text
  let weak_words := ["responsible for", "duties included", "helped with"]
  let weak_found := weak_words.filterMap
    (fun weak_word =>
      if strContains cv_lower weak_word then
        some ("Replace \"" ++ weak_word ++ "\" with stronger action verbs")
      else none)
  let quantifiable_verbs := ["managed", "led", "increased", "reduced", "improved"]
  let quant_found := quantifiable_verbs.filterMap
    (fun verb =>
      if strContains cv_lower verb &&
         !(reSearch (RE.chain [RE.lit verb.toList, .star reDot, RE.plus reDigit])
            cv_lower.toList) then
        some ("Add numbers/metrics to \"" ++ verb ++ "\" statements")
      else none)
  weak_found ++ quant_found

/-- `CVAnalyzer.analyze_cv`: the full analysis, with the external
collaborators explicit (`env` deterministic libraries, `lm` the
language-model outcome of this run). -/
def analyze_cv (env : ExtEnv) (lm : LMOutcome) (cv_text job_description : String) :
    AnalysisResults :=
  let cv_keywords := extract_keywords_from_cv env cv_text
  let job_keywords := extract_keywords_from_job_description env job_description
  let keyword_comparison := compare_keywords cv_keywords job_keywords
  let structure_analysis := analyze_structure cv_text
  let ats_score := calculate_ats_score cv_text job_description keyword_comparison
    structure_analysis
  let ai_analysis := get_ai_analysis lm
  let suggestions := generate_suggestions cv_text job_description keyword_comparison
    structure_analysis
  { ats_score := ats_score
    keyword_match_percentage := keyword_comparison.match_percentage
    matched_keywords := keyword_comparison.matched_keywords
    missing_keywords := keyword_comparison.missing_keywords
    technical_skills_match := keyword_comparison.matched_technical
    missing_technical_skills := keyword_comparison.missing_technical
    structure_analysis := structure_analysis
    suggestions := suggestions
    ai_analysis := ai_analysis
    readability_score := calculate_readability env cv_text
    word_count := (pySplitWhitespace cv_text).length
    sections_detected := detect_sections cv_text
    enhancement_opportunities := find_enhancement_opportunities cv_text job_description }

/-- A text of `n` whitespace-separated words (leading whitespace is ignored
by `pySplitWhitespace`, as by Python `str.split()`). -/
def nWordText (n : ℕ) : String :=
  String.mk (List.flatten (List.replicate n (' ' :: "word".toList)))

set_option maxRecDepth 100000

theorem roundHalfEven_le {x : ℚ} {m : ℤ} (h : x ≤ (m : ℚ)) : roundHalfEven x ≤ m := by
  have hfl : (⌊x⌋ : ℚ) ≤ x := Int.floor_le x
  have hfm : ⌊x⌋ ≤ m := by
    have h2 := Int.floor_le_floor h
    simpa using h2
  unfold roundHalfEven
  split_ifs with h1 h2 h3
  · exact hfm
  · have hlt : (⌊x⌋ : ℚ) < (m : ℚ) := by linarith
    have : ⌊x⌋ < m := by exact_mod_cast hlt
    omega
  · exact hfm
  · have hge : (1 : ℚ) / 2 ≤ x - (⌊x⌋ : ℚ) := le_of_not_lt h1
    have hlt : (⌊x⌋ : ℚ) < (m : ℚ) := by linarith
    have : ⌊x⌋ < m := by exact_mod_cast hlt
    omega

theorem le_roundHalfEven {x : ℚ} {m : ℤ} (h : (m : ℚ) ≤ x) : m ≤ roundHalfEven x := by
  have hfm : m ≤ ⌊x⌋ := Int.le_floor.mpr h
  unfold roundHalfEven
  split_ifs <;> omega

theorem pyRound_nonneg {x : ℚ} (d : ℕ) (h : 0 ≤ x) : 0 ≤ pyRound x d := by
  unfold pyRound
  apply div_nonneg
  · have h0 : ((0 : ℤ) : ℚ) ≤ x * 10 ^ d := by positivity
    exact_mod_cast le_roundHalfEven h0
  · positivity

theorem pyRound_le {x : ℚ} (d : ℕ) {m : ℤ} (h : x ≤ (m : ℚ)) : pyRound x d ≤ (m : ℚ) := by
  unfold pyRound
  rw [div_le_iff₀ (by positivity : (0 : ℚ) < 10 ^ d)]
  have hten : (0 : ℚ) ≤ 10 ^ d := by positivity
  have hx : x * 10 ^ d ≤ ((m * 10 ^ d : ℤ) : ℚ) := by
    push_cast
    exact mul_le_mul_of_nonneg_right h hten
  have hr := roundHalfEven_le hx
  calc (roundHalfEven (x * 10 ^ d) : ℚ) ≤ ((m * 10 ^ d : ℤ) : ℚ) := by exact_mod_cast hr
    _ = (m : ℚ) * 10 ^ d := by push_cast; ring

theorem roundHalfEven_zero : roundHalfEven 0 = 0 := by
  unfold roundHalfEven
  norm_num

theorem pyRound_zero (d : ℕ) : pyRound 0 d = 0 := by
  unfold pyRound
  rw [zero_mul, roundHalfEven_zero]
  norm_num

theorem ite_nonneg_q {p : Prop} [Decidable p] {a b : ℚ} (ha : 0 ≤ a) (hb : 0 ≤ b) :
    0 ≤ if p then a else b := by
  split <;> assumption

theorem calculate_keyword_score_bounds (a : AnalysisResults) :
    0 ≤ calculate_keyword_score a ∧ calculate_keyword_score a ≤ 100 := by
  simp only [calculate_keyword_score]
  split_ifs <;> norm_num

theorem calculate_structure_score_bounds (a : AnalysisResults) :
    0 ≤ calculate_structure_score a ∧ calculate_structure_score a ≤ 100 := by
  simp only [calculate_structure_score]
  constructor
  · apply le_min _ (by norm_num)
    repeat' apply add_nonneg
    all_goals repeat' apply ite_nonneg_q
    all_goals norm_num
  · exact min_le_right _ _

theorem calculate_content_score_bounds (a : AnalysisResults) :
    0 ≤ calculate_content_score a ∧ calculate_content_score a ≤ 100 := by
  simp only [calculate_content_score]
  exact ⟨le_max_right _ _, max_le (min_le_right _ _) (by norm_num)⟩

theorem calculate_technical_score_bounds (a : AnalysisResults) :
    0 ≤ calculate_technical_score a ∧ calculate_technical_score a ≤ 100 := by
  simp only [calculate_technical_score]
  split_ifs <;> norm_num

theorem calculate_formatting_score_bounds (a : AnalysisResults) :
    0 ≤ calculate_formatting_score a ∧ calculate_formatting_score a ≤ 100 := by
  simp only [calculate_formatting_score]
  exact ⟨le_max_right _ _, max_le (min_le_right _ _) (by norm_num)⟩

/-- C1: for every analysis record, the five component scores computed by
`ScoringSystem` each lie in [0, 100]; the returned `overall_score` is the
weighted sum of the components with the fixed weights of
`ScoringSystem.__init__` (0.35, 0.25, 0.20, 0.15, 0.05, summing to 1),
rounded to one decimal, and lies in [0, 100]. -/
theorem overall_score_weighted_and_bounded (a : AnalysisResults) :
    (weights.map Prod.snd).sum = 1 ∧
    (0 ≤ calculate_keyword_score a ∧ calculate_keyword_score a ≤ 100) ∧
    (0 ≤ calculate_structure_score a ∧ calculate_structure_score a ≤ 100) ∧
    (0 ≤ calculate_content_score a ∧ calculate_content_score a ≤ 100) ∧
    (0 ≤ calculate_technical_score a ∧ calculate_technical_score a ≤ 100) ∧
    (0 ≤ calculate_formatting_score a ∧ calculate_formatting_score a ≤ 100) ∧
    (calculate_overall_score a).overall_score =
      pyRound (calculate_keyword_score a * 0.35 + calculate_structure_score a * 0.25 +
        calculate_content_score a * 0.20 + calculate_technical_score a * 0.15 +
        calculate_formatting_score a * 0.05) 1 ∧
    0 ≤ (calculate_overall_score a).overall_score ∧
    (calculate_overall_score a).overall_score ≤ 100 := by
  obtain ⟨hk0, hk1⟩ := calculate_keyword_score_bounds a
  obtain ⟨hs0, hs1⟩ := calculate_structure_score_bounds a
  obtain ⟨hc0, hc1⟩ := calculate_content_score_bounds a
  obtain ⟨ht0, ht1⟩ := calculate_technical_score_bounds a
  obtain ⟨hf0, hf1⟩ := calculate_formatting_score_bounds a
  have heq : (calculate_overall_score a).overall_score =
      pyRound (calculate_keyword_score a * 0.35 + calculate_structure_score a * 0.25 +
        calculate_content_score a * 0.20 + calculate_technical_score a * 0.15 +
        calculate_formatting_score a * 0.05) 1 := rfl
  refine ⟨by norm_num [weights], ⟨hk0, hk1⟩, ⟨hs0, hs1⟩, ⟨hc0, hc1⟩, ⟨ht0, ht1⟩,
    ⟨hf0, hf1⟩, heq, ?_, ?_⟩
  · rw [heq]
    apply pyRound_nonneg
    nlinarith
  · rw [heq]
    have h100 : calculate_keyword_score a * 0.35 + calculate_structure_score a * 0.25 +
        calculate_content_score a * 0.20 + calculate_technical_score a * 0.15 +
        calculate_formatting_score a * 0.05 ≤ ((100 : ℤ) : ℚ) := by
      push_cast
      nlinarith
    have := pyRound_le 1 h100
    exact_mod_cast this

theorem gradeRank_le_9 (x : ℚ) : gradeRank (get_grade x) ≤ 9 := by
  simp only [get_grade]
  split_ifs <;> decide

theorem gradeRank_le_8 (x : ℚ) (h : x < 90) : gradeRank (get_grade x) ≤ 8 := by
  simp only [get_grade]
  split_ifs <;> first | decide | linarith

theorem gradeRank_le_7 (x : ℚ) (h : x < 85) : gradeRank (get_grade x) ≤ 7 := by
  simp only [get_grade]
  split_ifs <;> first | decide | linarith

theorem gradeRank_le_6 (x : ℚ) (h : x < 80) : gradeRank (get_grade x) ≤ 6 := by
  simp only [get_grade]
  split_ifs <;> first | decide | linarith

theorem gradeRank_le_5 (x : ℚ) (h : x < 75) : gradeRank (get_grade x) ≤ 5 := by
  simp only [get_grade]
  split_ifs <;> first | decide | linarith

theorem gradeRank_le_4 (x : ℚ) (h : x < 70) : gradeRank (get_grade x) ≤ 4 := by
  simp only [get_grade]
  split_ifs <;> first | decide | linarith

theorem gradeRank_le_3 (x : ℚ) (h : x < 65) : gradeRank (get_grade x) ≤ 3 := by
  simp only [get_grade]
  split_ifs <;> first | decide | linarith

theorem gradeRank_le_2 (x : ℚ) (h : x < 60) : gradeRank (get_grade x) ≤ 2 := by
  simp only [get_grade]
  split_ifs <;> first | decide | linarith

theorem gradeRank_le_1 (x : ℚ) (h : x < 55) : gradeRank (get_grade x) ≤ 1 := by
  simp only [get_grade]
  split_ifs <;> first | decide | linarith

theorem gradeRank_le_0 (x : ℚ) (h : x < 50) : gradeRank (get_grade x) ≤ 0 := by
  simp only [get_grade]
  split_ifs <;> first | decide | linarith

/-- C4: the grade function is monotone — for scores `a ≤ b`, the letter
grade of `a` is never strictly higher than that of `b` under the ordering
A+ > A > A- > B+ > B > B- > C+ > C > C- > D induced by the thresholds of
`ScoringSystem._get_grade` (≥90 A+, ≥85 A, ≥80 A-, ≥75 B+, ≥70 B, ≥65 B-,
≥60 C+, ≥55 C, ≥50 C-, else D). -/
theorem get_grade_monotone (a b : ℚ) (h : a ≤ b) :
    gradeRank (get_grade a) ≤ gradeRank (get_grade b) := by
  rcases le_or_lt 90 b with h90 | h90
  · have hb : get_grade b = "A+" := by simp only [get_grade]; rw [if_pos h90]
    rw [hb]
    exact le_trans (gradeRank_le_9 a) (by decide)
  rcases le_or_lt 85 b with h85 | h85
  · have hb : get_grade b = "A" := by
      simp only [get_grade]; rw [if_neg (not_le.mpr h90), if_pos h85]
    rw [hb]
    exact le_trans (gradeRank_le_8 a (lt_of_le_of_lt h h90)) (by decide)
  rcases le_or_lt 80 b with h80 | h80
  · have hb : get_grade b = "A-" := by
      simp only [get_grade]
      rw [if_neg (not_le.mpr h90), if_neg (not_le.mpr h85), if_pos h80]
    rw [hb]
    exact le_trans (gradeRank_le_7 a (lt_of_le_of_lt h h85)) (by decide)
  rcases le_or_lt 75 b with h75 | h75
  · have hb : get_grade b = "B+" := by
      simp only [get_grade]
      rw [if_neg (not_le.mpr h90), if_neg (not_le.mpr h85), if_neg (not_le.mpr h80),
        if_pos h75]
    rw [hb]
    exact le_trans (gradeRank_le_6 a (lt_of_le_of_lt h h80)) (by decide)
  rcases le_or_lt 70 b with h70 | h70
  · have hb : get_grade b = "B" := by
      simp only [get_grade]
      rw [if_neg (not_le.mpr h90), if_neg (not_le.mpr h85), if_neg (not_le.mpr h80),
        if_neg (not_le.mpr h75), if_pos h70]
    rw [hb]
    exact le_trans (gradeRank_le_5 a (lt_of_le_of_lt h h75)) (by decide)
  rcases le_or_lt 65 b with h65 | h65
  · have hb : get_grade b = "B-" := by
      simp only [get_grade]
      rw [if_neg (not_le.mpr h90), if_neg (not_le.mpr h85), if_neg (not_le.mpr h80),
        if_neg (not_le.mpr h75), if_neg (not_le.mpr h70), if_pos h65]
    rw [hb]
    exact le_trans (gradeRank_le_4 a (lt_of_le_of_lt h h70)) (by decide)
  rcases le_or_lt 60 b with h60 | h60
  · have hb : get_grade b = "C+" := by
      simp only [get_grade]
      rw [if_neg (not_le.mpr h90), if_neg (not_le.mpr h85), if_neg (not_le.mpr h80),
        if_neg (not_le.mpr h75), if_neg (not_le.mpr h70), if_neg (not_le.mpr h65),
        if_pos h60]
    rw [hb]
    exact le_trans (gradeRank_le_3 a (lt_of_le_of_lt h h65)) (by decide)
  rcases le_or_lt 55 b with h55 | h55
  · have hb : get_grade b = "C" := by
      simp only [get_grade]
      rw [if_neg (not_le.mpr h90), if_neg (not_le.mpr h85), if_neg (not_le.mpr h80),
        if_neg (not_le.mpr h75), if_neg (not_le.mpr h70), if_neg (not_le.mpr h65),
        if_neg (not_le.mpr h60), if_pos h55]
    rw [hb]
    exact le_trans (gradeRank_le_2 a (lt_of_le_of_lt h h60)) (by decide)
  rcases le_or_lt 50 b with h50 | h50
  · have hb : get_grade b = "C-" := by
      simp only [get_grade]
      rw [if_neg (not_le.mpr h90), if_neg (not_le.mpr h85), if_neg (not_le.mpr h80),
        if_neg (not_le.mpr h75), if_neg (not_le.mpr h70), if_neg (not_le.mpr h65),
        if_neg (not_le.mpr h60), if_neg (not_le.mpr h55), if_pos h50]
    rw [hb]
    exact le_trans (gradeRank_le_1 a (lt_of_le_of_lt h h55)) (by decide)
  · have hb : get_grade b = "D" := by
      simp only [get_grade]
      rw [if_neg (not_le.mpr h90), if_neg (not_le.mpr h85), if_neg (not_le.mpr h80),
        if_neg (not_le.mpr h75), if_neg (not_le.mpr h70), if_neg (not_le.mpr h65),
        if_neg (not_le.mpr h60), if_neg (not_le.mpr h55), if_neg (not_le.mpr h50)]
    rw [hb]
    exact le_trans (gradeRank_le_0 a (lt_of_le_of_lt h h50)) (by decide)

/-- Witness for C4 at the concrete pair 60 ≤ 80 (grade C+ against A-). -/
theorem get_grade_monotone_witness :
    (60 : ℚ) ≤ 80 ∧ gradeRank (get_grade 60) ≤ gradeRank (get_grade 80) :=
  ⟨by norm_num, get_grade_monotone 60 80 (by norm_num)⟩

/-- C10: when both the matched and the missing technical-skill sets are
empty (no technical skills in the job description),
`ScoringSystem._calculate_technical_score` returns exactly 70, regardless
of the rest of the record; otherwise it returns one of the band values
95, 85, 70, 55, 35 determined by the ratio matched/(matched+missing). -/
theorem technical_score_default_and_bands (a : AnalysisResults) :
    (a.technical_skills_match = ∅ ∧ a.missing_technical_skills = ∅ →
      calculate_technical_score a = 70) ∧
    (¬(a.technical_skills_match = ∅ ∧ a.missing_technical_skills = ∅) →
      calculate_technical_score a = 95 ∨ calculate_technical_score a = 85 ∨
      calculate_technical_score a = 70 ∨ calculate_technical_score a = 55 ∨
      calculate_technical_score a = 35) := by
  constructor
  · rintro ⟨h1, h2⟩
    simp only [calculate_technical_score, h1, h2, Finset.card_empty]
    norm_num
  · intro h
    have hcard : ¬(a.technical_skills_match.card + a.missing_technical_skills.card = 0) := by
      intro hc
      rw [Nat.add_eq_zero] at hc
      exact h ⟨Finset.card_eq_zero.mp hc.1, Finset.card_eq_zero.mp hc.2⟩
    simp only [calculate_technical_score, if_neg hcard]
    split_ifs <;> simp

/-- C3: the matched and missing keyword sets returned by
`KeywordExtractor.compare_keywords` partition the lowercased job
`all_keywords` set: their union is that set and they are disjoint. -/
theorem compare_keywords_partition (cv_keywords job_keywords : KeywordDict) :
    (compare_keywords cv_keywords job_keywords).matched_keywords ∪
      (compare_keywords cv_keywords job_keywords).missing_keywords =
      (job_keywords.all_keywords.map pyLower).toFinset ∧
    Disjoint (compare_keywords cv_keywords job_keywords).matched_keywords
      (compare_keywords cv_keywords job_keywords).missing_keywords := by
  simp only [compare_keywords]
  constructor
  · ext x
    simp only [Finset.mem_union, Finset.mem_inter, Finset.mem_sdiff]
    tauto
  · rw [Finset.disjoint_left]
    intro x hx hx2
    simp only [Finset.mem_inter, Finset.mem_sdiff] at hx hx2
    tauto

theorem match_percentage_eq_zero_of_matched_empty (cv_keywords job_keywords : KeywordDict)
    (h : (compare_keywords cv_keywords job_keywords).matched_keywords = ∅) :
    (compare_keywords cv_keywords job_keywords).match_percentage = 0 := by
  simp only [compare_keywords] at h ⊢
  rw [h, Finset.card_empty]
  split_ifs with ht
  · norm_num
    exact pyRound_zero 2
  · exact pyRound_zero 2

theorem match_percentage_bounds (cv_keywords job_keywords : KeywordDict) :
    0 ≤ (compare_keywords cv_keywords job_keywords).match_percentage ∧
    (compare_keywords cv_keywords job_keywords).match_percentage ≤ 100 := by
  simp only [compare_keywords]
  set m := ((cv_keywords.all_keywords.map pyLower).toFinset ∩
    (job_keywords.all_keywords.map pyLower).toFinset).card with hm
  set t := (job_keywords.all_keywords.map pyLower).toFinset.card with ht
  have hmt : m ≤ t := Finset.card_le_card Finset.inter_subset_right
  split_ifs with htpos
  · have htq : (0 : ℚ) < (t : ℚ) := by exact_mod_cast htpos
    constructor
    · apply pyRound_nonneg
      positivity
    · have hle : (m : ℚ) / (t : ℚ) * 100 ≤ ((100 : ℤ) : ℚ) := by
        have hdiv : (m : ℚ) / (t : ℚ) ≤ 1 := by
          rw [div_le_one htq]
          exact_mod_cast hmt
        push_cast
        nlinarith
      have := pyRound_le 2 hle
      exact_mod_cast this
  · rw [pyRound_zero 2]
    norm_num

/-- C2 — the claim as amended: for every pair of keyword dictionaries,
`compare_keywords` returns a `match_percentage` in [0, 100]; the percentage
is 0 whenever the job's (lowercased) `all_keywords` set is empty — the
zero-guard, no division error — and more generally whenever the matched
set is empty, so a zero percentage does not imply an empty job set. -/
theorem match_percentage_bounds_and_zero (cv_keywords job_keywords : KeywordDict) :
    (0 ≤ (compare_keywords cv_keywords job_keywords).match_percentage ∧
     (compare_keywords cv_keywords job_keywords).match_percentage ≤ 100) ∧
    ((job_keywords.all_keywords.map pyLower).toFinset = ∅ →
      (compare_keywords cv_keywords job_keywords).match_percentage = 0) ∧
    ((compare_keywords cv_keywords job_keywords).matched_keywords = ∅ →
      (compare_keywords cv_keywords job_keywords).match_percentage = 0) := by
  refine ⟨match_percentage_bounds cv_keywords job_keywords, ?_, ?_⟩
  · intro hjob
    apply match_percentage_eq_zero_of_matched_empty
    simp only [compare_keywords, hjob]
    exact Finset.inter_empty _
  · exact match_percentage_eq_zero_of_matched_empty cv_keywords job_keywords

/-- C2 counterexample: with an empty CV keyword list against the nonempty
job keyword list ["python"], the returned `match_percentage` is 0 while
the job's `all_keywords` set is nonempty — refuting the claimed
"equals 0 only if the job keyword set is empty" direction. -/
theorem match_percentage_zero_nonempty_job :
    (compare_keywords {} { all_keywords := ["python"] }).match_percentage = 0 ∧
    ((({ all_keywords := ["python"] } : KeywordDict).all_keywords.map pyLower).toFinset ≠
      (∅ : Finset String)) := by
  constructor
  · apply match_percentage_eq_zero_of_matched_empty
    decide
  · decide

/-- C5 counterexample: on the Scenario-1 texts (job "Python AWS Docker",
CV "Experienced Python developer. AWS certified."), the matched technical
set is not exactly {python, aws}: the taxonomy's one-letter skill "r"
(programming category) is a substring of both "Docker" and "Experienced",
so it is matched as well. -/
theorem scenario1_matched_not_python_aws :
    (compare_keywords
        { technical_skills :=
            extract_technical_skills "Experienced Python developer. AWS certified." }
        { technical_skills := extract_technical_skills "Python AWS Docker" }).matched_technical ≠
      ({"python", "aws"} : Finset String) := by
  decide

/-- C5 — the claim as amended: on the Scenario-1 texts, extracting
technical skills from each text and comparing them yields
matched_technical exactly {python, aws, r} — the substring taxonomy also
matches the one-letter skill "r" inside "Docker"/"Experienced" — and
missing_technical still contains docker. -/
theorem scenario1_matched_technical :
    (compare_keywords
        { technical_skills :=
            extract_technical_skills "Experienced Python developer. AWS certified." }
        { technical_skills := extract_technical_skills "Python AWS Docker" }).matched_technical =
      ({"python", "aws", "r"} : Finset String) ∧
    "docker" ∈ (compare_keywords
        { technical_skills :=
            extract_technical_skills "Experienced Python developer. AWS certified." }
        { technical_skills := extract_technical_skills "Python AWS Docker" }).missing_technical := by
  constructor
  · decide
  · decide

/-- C6 counterexample: on the Scenario-3 CV text, the achievements list
does not contain "10": the source's pattern `managed\s+(\d+)` requires the
number directly after "managed", and "managed a team of 10" does not
match it. -/
theorem scenario3_achievements_no_ten :
    "10" ∉ extract_achievements "Increased revenue by 25% and managed a team of 10." := by
  decide

/-- C6 — the claim as amended: for the Scenario-3 CV text
"Increased revenue by 25% and managed a team of 10.", the structure
analyzer's has_quantified_achievements flag is true and the achievements
list contains "25" (twice, from the percentage and the "increased ... by"
patterns) but not "10" (the `managed\s+(\d+)` pattern requires the number
directly after "managed"). -/
theorem scenario3_quantified_and_achievements :
    has_quantified_achievements "Increased revenue by 25% and managed a team of 10." = true ∧
    "25" ∈ extract_achievements "Increased revenue by 25% and managed a team of 10." ∧
    "10" ∉ extract_achievements "Increased revenue by 25% and managed a team of 10." := by
  refine ⟨?_, ?_, ?_⟩ <;> decide

/-- C7: for every CV text, `CVAnalyzer._check_length`'s appropriate_length
flag is true exactly when the whitespace-split word count lies in
[200, 1000]; in particular texts of exactly 200 or 1000 words pass and
texts of 199 or 1001 words do not. -/
theorem check_length_iff_word_count :
    (∀ cv_text : String, check_length cv_text = true ↔
      200 ≤ (pySplitWhitespace cv_text).length ∧
        (pySplitWhitespace cv_text).length ≤ 1000) ∧
    check_length (nWordText 200) = true ∧
    check_length (nWordText 1000) = true ∧
    check_length (nWordText 199) = false ∧
    check_length (nWordText 1001) = false := by
  refine ⟨?_, ?_, ?_, ?_, ?_⟩
  · intro cv_text
    simp [check_length]
  · decide
  · decide
  · decide
  · decide

/-- C8: language-model failures never reach the scoring pipeline —
`CVAnalyzer._get_ai_analysis` is total, and maps both the disconnected
case and any raised exception to the fallback record with score 70, the
fallback text and empty sections; and the deterministic `ats_score` of
`analyze_cv` is computed independently of the language-model outcome. -/
theorem ai_fallback_and_ats_independent :
    (get_ai_analysis .disconnected =
      { score := 70
        analysis_text := "AI analysis unavailable - Ollama not connected"
        sections := [] }) ∧
    (∀ msg : String, get_ai_analysis (.raises msg) =
      { score := 70, analysis_text := "AI analysis error: " ++ msg, sections := [] }) ∧
    (∀ (env : ExtEnv) (lm lm' : LMOutcome) (cv_text job_description : String),
      (analyze_cv env lm cv_text job_description).ats_score =
        (analyze_cv env lm' cv_text job_description).ats_score) :=
  ⟨rfl, fun _ => rfl, fun _ _ _ _ _ => rfl⟩

/-- C9: the deterministic scoring pipeline is a pure function of the text
inputs: with the deterministic library collaborators fixed, two runs of
`analyze_cv` followed by `calculate_overall_score` on the same
(cv_text, job_description) produce identical ScoreBreakdown records even
when the language-model outcome differs between the runs — the analysis
records of the two runs agree on every field except `ai_analysis`. -/
theorem pipeline_deterministic_up_to_ai (env : ExtEnv) (lm lm' : LMOutcome)
    (cv_text job_description : String) :
    calculate_overall_score (analyze_cv env lm cv_text job_description) =
      calculate_overall_score (analyze_cv env lm' cv_text job_description) ∧
    analyze_cv env lm cv_text job_description =
      { analyze_cv env lm' cv_text job_description with
        ai_analysis := get_ai_analysis lm } :=
  ⟨rfl, rfl⟩
